import Mathlib

/-!
# Pattern Mirror — verification of the analysis core

A shallow embedding of the Pattern Mirror journaling app's analysis core:
the data model (`types.ts`), the prompt builder and response handling of
`analyzePatterns` (`services/geminiService.ts` and its evolved variant with
history/profile support), the orchestrator `handleAnalyze` and the
localStorage load logic (`App.tsx`, evolved variant), and the `FileUpload`
selection logic.

External JavaScript builtins (JSON.parse, JSON.stringify, Date formatting,
the network call, FileReader base64 encoding, localStorage outcomes) are
passed as explicit function/outcome parameters; everything the repository's
own code does is modelled directly.
-/

/-- `types.ts`: the per-call analysis report. -/
structure AnalysisResult where
  overview : String
  emotional_patterns : List String
  environment_patterns : List String
  behavioral_loops : List String
  triggers : List String
  recurring_themes : List String
  core_pursuits_and_why : String
  reflection_prompts : List String
deriving Repr, DecidableEq

/-- `types.ts`: one user submission recorded in history. -/
structure JournalEntry where
  id : String
  timestamp : String
  text : String
  journalPhotoCount : Nat
  spacePhotoCount : Nat
deriving Repr, DecidableEq

/-- `types.ts`: the running cumulative profile. -/
structure UserPatternProfile where
  summary : String
  tendencies : List String
  typical_triggers : List String
  typical_coping_styles : List String
  last_updated : String
deriving Repr, DecidableEq

/-- `types.ts`: UI analysis state (`isLoading`, `error`, `result`). -/
structure AnalysisState where
  isLoading : Bool
  error : Option String
  result : Option AnalysisResult
deriving Repr, DecidableEq

/-- A browser `File`: its bytes (as the base64 payload the FileReader
produces) and MIME type. The base64 encoding itself is a browser builtin,
so the payload is carried through uninterpreted. -/
structure FileData where
  data : String
  mimeType : String
deriving Repr, DecidableEq

/-- `types.ts`: an `UploadedFile` as held by the UI (`file` + preview URL). -/
structure UploadedFile where
  file : FileData
  previewUrl : String
deriving Repr, DecidableEq

/-- One part of the request payload sent to the model: a text segment or an
inline image (`inlineData`), mirroring the `parts` array built in
`analyzePatterns`. -/
inductive PromptPart where
  | text (s : String)
  | image (data : String) (mimeType : String)
deriving Repr, DecidableEq

/-- The assembled request: what `ai.models.generateContent` would be given.
Producing a `Request` value marks the point where the network call is
dispatched; every failure before that happens with no request in existence. -/
structure Request where
  modelName : String
  parts : List PromptPart
deriving Repr, DecidableEq

/-- The errors `analyzePatterns` can throw, with the exact messages thrown
by the source. -/
inductive AnalyzeError where
  | apiKeyMissing
  | noContent
  | analysisFailed
deriving Repr, DecidableEq

/-- The `Error.message` string of each thrown error, verbatim from the
source. -/
def AnalyzeError.message : AnalyzeError → String
  | .apiKeyMissing => "API Key is missing. Please ensure process.env.API_KEY is set."
  | .noContent => "Please provide some text or images to analyze."
  | .analysisFailed => "Failed to analyze patterns. Please try again."

/-- JavaScript `s.length`: the number of units of the string (modelled on
the character list). -/
def jsLength (s : String) : Nat := s.data.length

/-- JavaScript `s.slice(0, n)`: the prefix of at most `n` units. -/
def jsSlice (s : String) (n : Nat) : String := ⟨s.data.take n⟩

/-- JavaScript `s.replace(/\n/g, ' ')`: every newline becomes a space. -/
def jsReplaceNl (s : String) : String :=
  ⟨s.data.map (fun c => if c = '\n' then ' ' else c)⟩

/-- JavaScript `s.trim()`: strip leading and trailing whitespace. -/
def jsTrim (s : String) : String :=
  ⟨((s.data.dropWhile Char.isWhitespace).reverse.dropWhile Char.isWhitespace).reverse⟩

/-- `pastEntries.slice(-10).reverse()`: take the last (up to) 10 history
entries, newest first. JavaScript `slice(-10)` clamps at the start of the
array, which Nat subtraction models exactly. -/
def selectRecentEntries (pastEntries : List JournalEntry) : List JournalEntry :=
  (pastEntries.drop (pastEntries.length - 10)).reverse

/-- The snippet of one selected entry in the evolved service's
`pastEntriesBlock`: `e.text.slice(0, 400).replace(/\n/g, ' ')`. -/
def snippetOf (e : JournalEntry) : String :=
  jsReplaceNl (jsSlice e.text 400)

/-- The snippet plus its truncation marker as interpolated into the
`pastEntriesBlock` template: `"${snippet}${e.text.length > 400 ? '...' : ''}"`. -/
def snippetWithMarker (e : JournalEntry) : String :=
  snippetOf e ++ (if 400 < jsLength e.text then "..." else "")

/-- One rendered entry of `pastEntriesBlock` (evolved service). `formatDate`
stands for the builtin `new Date(ts).toLocaleDateString()`. -/
def entryBlock (formatDate : String → String) (index : Nat) (e : JournalEntry) : String :=
  "ENTRY #" ++ toString (index + 1) ++ " – [" ++ formatDate e.timestamp ++ "]:\n" ++
  "- Text snippet (what you wrote): \"" ++ snippetWithMarker e ++ "\"\n" ++
  "- Pattern signals (you infer these from this entry + the previous pattern_profile):\n" ++
  "  • Identify 1–3 recurring behaviors, emotions, avoidance patterns, coping styles, or triggers shown in this entry.\n" ++
  "  • These bullet points are high-level clues that help you detect repeating patterns across entries."

/-- The full `pastEntriesBlock` string of the evolved service: the selected
entries rendered in order and joined with blank lines, or the explicit
first-entry marker. -/
def pastEntriesBlock (formatDate : String → String) (pastEntries : List JournalEntry) : String :=
  if 0 < pastEntries.length then
    String.intercalate "\n\n"
      ((selectRecentEntries pastEntries).mapIdx (fun i e => entryBlock formatDate i e))
  else "No past entries. This is the first one."

/-- One line of `historySummaryText` in the older history-aware service
variant: `- [${e.timestamp}] ${e.text.slice(0, 500)}${e.text.length > 500 ? '...' : ''}`. -/
def historyLine (e : JournalEntry) : String :=
  "- [" ++ e.timestamp ++ "] " ++ jsSlice e.text 500 ++
  (if 500 < jsLength e.text then "..." else "")

/-- `historySummaryText` of the older history-aware service variant:
selected entries (same `slice(-10).reverse()` window) rendered one per line. -/
def historySummaryText (pastEntries : List JournalEntry) : String :=
  String.intercalate "\n" ((selectRecentEntries pastEntries).map historyLine)

/-- `previousProfile ? JSON.stringify(previousProfile, null, 2) : "None yet. ..."`.
`stringify` stands for the builtin `JSON.stringify`. -/
def previousProfileText (stringify : UserPatternProfile → String)
    (previousProfile : Option UserPatternProfile) : String :=
  match previousProfile with
  | some p => stringify p
  | none => "None yet. You are building the first version of this profile."

/-- `fileToGenerativePart`: the File's base64 payload and MIME type as an
inline-data part. -/
def fileToGenerativePart (f : FileData) : PromptPart :=
  .image f.data f.mimeType

/-- The `parts` array assembled by the evolved `analyzePatterns` before
dispatch: context block, current text (or its absence marker), then the
captioned photo batches. -/
def buildParts (formatDate : String → String) (stringify : UserPatternProfile → String)
    (journalText : String) (journalPhotos spacePhotos : List FileData)
    (pastEntries : List JournalEntry) (previousProfile : Option UserPatternProfile) :
    List PromptPart :=
  let contextPart : PromptPart := .text
    ("PAST PATTERN SIGNALS (most recent first):\n" ++
     pastEntriesBlock formatDate pastEntries ++
     "\n\nPREVIOUS PATTERN PROFILE (if any):\n" ++
     previousProfileText stringify previousProfile ++
     "\n\nCURRENT ENTRY TO ANALYZE:")
  let textPart : PromptPart :=
    if jsTrim journalText ≠ "" then .text ("JOURNAL ENTRIES/NOTES:\n" ++ journalText)
    else .text "(No text provided for this entry)"
  let journalPhotoParts : List PromptPart :=
    if 0 < journalPhotos.length then
      .text "Here are photos of handwritten journal entries:" ::
        journalPhotos.map fileToGenerativePart
    else []
  let spacePhotoParts : List PromptPart :=
    if 0 < spacePhotos.length then
      .text "Here are photos of my room/workspace/environment:" ::
        spacePhotos.map fileToGenerativePart
    else []
  contextPart :: textPart :: (journalPhotoParts ++ spacePhotoParts)

/-- The pre-network phase of the evolved `analyzePatterns`, in source order:
the API-key check (`!process.env.API_KEY`, also failing on the empty
string), then prompt assembly, then the empty-content check, then the
request is handed to the network. An `Except.error` result means the
function threw before any `Request` existed. -/
def buildRequest (apiKey : Option String)
    (formatDate : String → String) (stringify : UserPatternProfile → String)
    (journalText : String) (journalPhotos spacePhotos : List FileData)
    (pastEntries : List JournalEntry) (previousProfile : Option UserPatternProfile) :
    Except AnalyzeError Request :=
  match apiKey with
  | none => .error .apiKeyMissing
  | some k =>
    if k = "" then .error .apiKeyMissing
    else
      let parts := buildParts formatDate stringify journalText journalPhotos spacePhotos
        pastEntries previousProfile
      if jsLength (jsTrim journalText) = 0 ∧ journalPhotos.length = 0 ∧ spacePhotos.length = 0 then
        .error .noContent
      else
        .ok { modelName := "gemini-3-pro-preview", parts := parts }

/-- A parsed JSON value, as produced by the builtin `JSON.parse`. -/
inductive Json where
  | null
  | bool (b : Bool)
  | num (n : Int)
  | str (s : String)
  | arr (elems : List Json)
  | obj (fields : List (String × Json))
deriving Repr

/-- JavaScript property access `j.name`. On `null` it throws a TypeError
(`.error ()`; `JSON.parse` can never yield `undefined`, so `null` is the
only throwing base here). On an object it yields the field's value, or
`undefined` (`.ok none`) when absent; on any other base (boolean, number,
string, array — all boxed by JavaScript) it yields `undefined` without
throwing. -/
def Json.getField : Json → String → Except Unit (Option Json)
  | .null, _ => .error ()
  | .obj fields, name => .ok (fields.lookup name)
  | _, _ => .ok none

/-- The analysis object assembled by the response handler, field by field,
from whatever the parsed response holds — `none` models JavaScript
`undefined` for an absent property. No presence or type check is performed
by the source. -/
structure RawAnalysis where
  overview : Option Json
  emotional_patterns : Option Json
  environment_patterns : Option Json
  behavioral_loops : Option Json
  triggers : Option Json
  recurring_themes : Option Json
  core_pursuits_and_why : Option Json
  reflection_prompts : Option Json
deriving Repr

/-- Field-by-field extraction of the `AnalysisResult` from the parsed
response, exactly mirroring the object literal in `analyzePatterns` (in
source order, so a TypeError from the first access on a `null` response
propagates). -/
def extractAnalysis (j : Json) : Except Unit RawAnalysis :=
  (j.getField "overview").bind fun o =>
  (j.getField "emotional_patterns").bind fun e1 =>
  (j.getField "environment_patterns").bind fun e2 =>
  (j.getField "behavioral_loops").bind fun b =>
  (j.getField "triggers").bind fun t =>
  (j.getField "recurring_themes").bind fun r =>
  (j.getField "core_pursuits_and_why").bind fun c =>
  (j.getField "reflection_prompts").bind fun rp =>
  .ok ⟨o, e1, e2, b, t, r, c, rp⟩

/-- The resolved value of `analyzePatterns`: the extracted analysis and
`jsonResponse.pattern_profile` (possibly `undefined`). -/
structure AnalyzeSuccess where
  analysis : RawAnalysis
  pattern_profile : Option Json
deriving Repr

/-- The post-network phase of `analyzePatterns`: the `try` block from
`response.text` onward. `textResponse` is the model's text (`none` for
`undefined`; the empty string is also falsy in `if (!textResponse)`),
`parse` stands for the builtin `JSON.parse` (`none` = it threw). Every
throw inside the `try` — including the TypeError raised by property access
when the parsed response is `null` — is caught and rethrown as the single
generic failure. -/
def handleResponse (textResponse : Option String) (parse : String → Option Json) :
    Except AnalyzeError AnalyzeSuccess :=
  match textResponse with
  | none => .error .analysisFailed
  | some t =>
    if t = "" then .error .analysisFailed
    else
      match parse t with
      | none => .error .analysisFailed
      | some j =>
        match extractAnalysis j, j.getField "pattern_profile" with
        | .ok analysis, .ok pp => .ok { analysis := analysis, pattern_profile := pp }
        | _, _ => .error .analysisFailed

/-- The whole evolved `analyzePatterns` call: the pre-network phase, then —
only if a request was built — the network boundary (`net`, standing for
`ai.models.generateContent` returning `response.text`) and the response
handling. -/
def analyzePatterns (apiKey : Option String)
    (formatDate : String → String) (stringify : UserPatternProfile → String)
    (journalText : String) (journalPhotos spacePhotos : List FileData)
    (pastEntries : List JournalEntry) (previousProfile : Option UserPatternProfile)
    (net : Request → Option String) (parse : String → Option Json) :
    Except AnalyzeError AnalyzeSuccess :=
  match buildRequest apiKey formatDate stringify journalText journalPhotos spacePhotos
      pastEntries previousProfile with
  | .error e => .error e
  | .ok req => handleResponse (net req) parse

/-- The component state of `App` that `handleAnalyze` can change: the
history, the profile, and the UI analysis state. -/
structure HandleResult where
  history : List JournalEntry
  profile : Option UserPatternProfile
  analysisState : AnalysisState
deriving Repr, DecidableEq

/-- `err.message || "Something went wrong during analysis."` — the fallback
applies exactly when the message is falsy (empty). -/
def orFallbackMsg (m : String) : String :=
  if m = "" then "Something went wrong during analysis." else m

/-- The evolved `App.handleAnalyze`, as a state transition on
`(history, profile, analysisState)`. The awaited `analyzePatterns` outcome
is `outcome` (an `Error` message on rejection); `freshId` and `nowIso`
stand for the builtins `crypto.randomUUID()` and `new Date().toISOString()`;
`persistHistory` and `persistProfile` are the outcomes of the two
`localStorage.setItem` calls (an `Error` message if the write throws, e.g.
on quota exhaustion). Both `setItem` calls sit inside the same `try` block
as the success-path state updates, after `setHistory`, `setProfile` and the
success `setAnalysisState`; a throwing write therefore lands in the `catch`
and replaces the success state with a failure state, while the already
applied history/profile updates remain. -/
def handleAnalyze (journalText : String) (journalPhotos spacePhotos : List UploadedFile)
    (history : List JournalEntry) (profile : Option UserPatternProfile)
    (freshId nowIso : String)
    (outcome : Except String (AnalysisResult × UserPatternProfile))
    (persistHistory persistProfile : Except String Unit) : HandleResult :=
  match outcome with
  | .error m =>
    { history := history, profile := profile,
      analysisState := { isLoading := false, error := some (orFallbackMsg m), result := none } }
  | .ok (analysis, pattern_profile) =>
    let newEntry : JournalEntry :=
      { id := freshId, timestamp := nowIso, text := jsTrim journalText,
        journalPhotoCount := journalPhotos.length, spacePhotoCount := spacePhotos.length }
    let updatedHistory := history ++ [newEntry]
    match persistHistory with
    | .error m =>
      { history := updatedHistory, profile := some pattern_profile,
        analysisState := { isLoading := false, error := some (orFallbackMsg m), result := none } }
    | .ok _ =>
      match persistProfile with
      | .error m =>
        { history := updatedHistory, profile := some pattern_profile,
          analysisState := { isLoading := false, error := some (orFallbackMsg m), result := none } }
      | .ok _ =>
        { history := updatedHistory, profile := some pattern_profile,
          analysisState := { isLoading := false, error := none, result := some analysis } }

/-- JavaScript truthiness on `localStorage.getItem`'s `string | null`
result: `null` and the empty string are both falsy. -/
def jsTruthy : Option String → Option String
  | some s => if s = "" then none else some s
  | none => none

/-- The load effect of the evolved `App` (`useEffect` on mount), with the
two stored blobs and the builtin `JSON.parse` outcomes (`none` = it threw)
as parameters. Both `getItem` reads happen first; the history blob is
parsed and applied, then the profile blob; a throw anywhere aborts the
rest of the `try` block but keeps whatever was already applied, and the
`catch` only logs. The initial component state is `([], none)`. -/
def loadStoredState (storedHistory storedProfile : Option String)
    (parseHistory : String → Option (List JournalEntry))
    (parseProfile : String → Option UserPatternProfile) :
    List JournalEntry × Option UserPatternProfile :=
  match jsTruthy storedHistory with
  | none =>
    match jsTruthy storedProfile with
    | none => ([], none)
    | some t =>
      match parseProfile t with
      | none => ([], none)
      | some prof => ([], some prof)
  | some s =>
    match parseHistory s with
    | none => ([], none)
    | some h =>
      match jsTruthy storedProfile with
      | none => (h, none)
      | some t =>
        match parseProfile t with
        | none => (h, none)
        | some prof => (h, some prof)

/-- `FileUpload.handleFileSelect`: append the newly chosen files to the
current selection and clamp with `.slice(0, maxFiles)`. `App` mounts
`FileUpload` without a `maxFiles` prop, so the default of 5 applies. -/
def handleFileSelect (maxFiles : Nat) (files newFiles : List UploadedFile) :
    List UploadedFile :=
  (files ++ newFiles).take maxFiles

/-- `FileUpload.removeFile`: `files.filter((_, index) => index !== indexToRemove)`. -/
def removeFile (files : List UploadedFile) (indexToRemove : Nat) : List UploadedFile :=
  (files.enum.filter (fun p => p.1 ≠ indexToRemove)).map (fun p => p.2)

/-- A concrete analysis value used by concrete runs. -/
def sampleAnalysis : AnalysisResult :=
  { overview := "an overview", emotional_patterns := [], environment_patterns := [],
    behavioral_loops := [], triggers := [], recurring_themes := [],
    core_pursuits_and_why := "", reflection_prompts := [] }

/-- A concrete profile value used by concrete runs. -/
def sampleProfile : UserPatternProfile :=
  { summary := "a summary", tendencies := ["a tendency"], typical_triggers := [],
    typical_coping_styles := [], last_updated := "2026-01-01" }

/-- A concrete journal entry used by concrete runs. -/
def sampleEntry : JournalEntry :=
  { id := "e-1", timestamp := "2026-01-01T00:00:00.000Z", text := "an entry",
    journalPhotoCount := 0, spacePhotoCount := 0 }

/-- Fifteen pairwise distinct history entries (entry `k` has `k` characters
of text), for exercising the 10-entry window. -/
def sampleEntries15 : List JournalEntry :=
  (List.range 15).map (fun k =>
    { id := "e", timestamp := "t", text := String.mk (List.replicate k 'x'),
      journalPhotoCount := 0, spacePhotoCount := 0 })

/-- A 401-character text whose second character is a newline: longer than
the 400-character snippet bound, with a newline inside the truncated
prefix. -/
def longNlText : String := "a\n" ++ String.mk (List.replicate 399 'c')

/-- A history entry carrying `longNlText`. -/
def longNlEntry : JournalEntry :=
  { id := "e-long", timestamp := "2026-01-02", text := longNlText,
    journalPhotoCount := 0, spacePhotoCount := 0 }

/-- A 501-character text: longer than the 500-character summary-line bound. -/
def long501Text : String := String.mk (List.replicate 501 'd')

/-- A history entry carrying `long501Text`. -/
def long501Entry : JournalEntry :=
  { id := "e-501", timestamp := "2026-01-03", text := long501Text,
    journalPhotoCount := 0, spacePhotoCount := 0 }

/-- Concrete uploaded files used by concrete runs. -/
def uFile (tag : String) : UploadedFile :=
  { file := { data := tag, mimeType := "image/png" }, previewUrl := tag }


/-! ## Helper lemmas -/

theorem jsLength_jsSlice (s : String) (n : Nat) :
    jsLength (jsSlice s n) = min n (jsLength s) := by
  simp [jsLength, jsSlice]

theorem jsSlice_ne_of_lt (s : String) (n : Nat) (h : n < jsLength s) :
    jsSlice s n ≠ s := by
  intro he
  have hl : jsLength (jsSlice s n) = jsLength s := by rw [he]
  rw [jsLength_jsSlice] at hl
  omega

theorem jsSlice_of_le (s : String) (n : Nat) (h : jsLength s ≤ n) :
    jsSlice s n = s := by
  show String.mk (s.data.take n) = s
  rw [List.take_of_length_le h]

theorem enumFrom_filter_ne_map (l : List UploadedFile) (k i : Nat) :
    ((List.enumFrom k l).filter (fun p => p.1 ≠ i)).map (fun p => p.2) =
      if i < k then l else l.eraseIdx (i - k) := by
  induction l generalizing k with
  | nil => simp [List.enumFrom]
  | cons a l ih =>
    simp only [List.enumFrom]
    by_cases hk : k = i
    · subst hk
      simp only [List.filter_cons, decide_eq_true_eq]
      rw [if_neg (by simp)]
      rw [ih (k + 1)]
      rw [if_pos (by omega), if_neg (by omega)]
      simp
    · simp only [List.filter_cons, decide_eq_true_eq]
      rw [if_pos (by simp [hk])]
      simp only [List.map_cons]
      rw [ih (k + 1)]
      by_cases hlt : i < k
      · rw [if_pos (by omega), if_pos hlt]
      · rw [if_neg (by omega), if_neg hlt]
        have hik : i - k = (i - (k + 1)) + 1 := by omega
        rw [hik, List.eraseIdx_cons_succ]

theorem removeFile_eq_eraseIdx (files : List UploadedFile) (i : Nat) :
    removeFile files i = files.eraseIdx i := by
  unfold removeFile
  rw [List.enum, enumFrom_filter_ne_map]
  simp

/-! ## Claims -/

/-- C5: the prompt builder selects at most the 10 most recent history
entries — given 15 prior entries, exactly the 10 most recent, older ones
excluded — and orders them most-recent-first (element `i` of the selection
is entry `length - 1 - i` of the history); both `pastEntriesBlock` and
`historySummaryText` render exactly this selection, in this order. -/
theorem c5_history_window (entries : List JournalEntry) :
    (selectRecentEntries entries).length = min entries.length 10 ∧
    (∀ i, i < min entries.length 10 →
      (selectRecentEntries entries)[i]? = entries[entries.length - 1 - i]?) ∧
    (entries.length = 15 → selectRecentEntries entries = (entries.drop 5).reverse) := by
  refine ⟨?_, ?_, ?_⟩
  · simp [selectRecentEntries]
    omega
  · intro i hi
    unfold selectRecentEntries
    have hlen : (entries.drop (entries.length - 10)).length
        = entries.length - (entries.length - 10) := by simp
    have hilt : i < (entries.drop (entries.length - 10)).length := by omega
    rw [List.getElem?_reverse hilt, hlen, List.getElem?_drop]
    congr 1
    omega
  · intro h
    unfold selectRecentEntries
    rw [h]

/-- C5 witness: on a concrete 15-entry history the selection is the 10 most
recent, newest first. -/
theorem c5_history_window_witness :
    selectRecentEntries sampleEntries15 = (sampleEntries15.drop 5).reverse ∧
    (selectRecentEntries sampleEntries15)[0]? = sampleEntries15[14]? := by
  refine ⟨(c5_history_window sampleEntries15).2.2 (by decide), ?_⟩
  have h := (c5_history_window sampleEntries15).2.1 0 (by decide)
  simpa using h

/-- C10: the selected-file list never exceeds 5 files; adding files appends
the new ones and keeps only the first 5 of the combined list (all the
already-selected files are retained when they number at most 5, and the
excess newly added files are dropped); removing a file removes exactly the
file at that index, preserving the relative order of the rest (the result
is a sublist of the original selection). -/
theorem c10_file_limit (files newFiles : List UploadedFile) (i : Nat) :
    (handleFileSelect 5 files newFiles).length ≤ 5 ∧
    handleFileSelect 5 files newFiles = files.take 5 ++ newFiles.take (5 - files.length) ∧
    (files.length ≤ 5 →
      handleFileSelect 5 files newFiles = files ++ newFiles.take (5 - files.length)) ∧
    removeFile files i = files.eraseIdx i ∧
    (removeFile files i).Sublist files := by
  refine ⟨?_, ?_, ?_, removeFile_eq_eraseIdx files i, ?_⟩
  · simp [handleFileSelect]
  · exact List.take_append_eq_append_take
  · intro h
    unfold handleFileSelect
    rw [List.take_append_eq_append_take, List.take_of_length_le h]
  · rw [removeFile_eq_eraseIdx]
    exact List.eraseIdx_sublist files i

/-- C10 witness: one already-selected file plus seven newly chosen ones
yields the first five of the combined list; removing the middle of three
files keeps the remaining two in order. -/
theorem c10_file_limit_witness :
    handleFileSelect 5 [uFile "a"]
        [uFile "b", uFile "c", uFile "d", uFile "e", uFile "f", uFile "g", uFile "h"] =
      [uFile "a"] ++ [uFile "b", uFile "c", uFile "d", uFile "e", uFile "f", uFile "g",
        uFile "h"].take (5 - [uFile "a"].length) ∧
    (removeFile [uFile "a", uFile "b", uFile "c"] 1).Sublist [uFile "a", uFile "b", uFile "c"] := by
  exact ⟨(c10_file_limit [uFile "a"]
      [uFile "b", uFile "c", uFile "d", uFile "e", uFile "f", uFile "g", uFile "h"] 1).2.2.1
        (by decide),
    (c10_file_limit [uFile "a", uFile "b", uFile "c"] [] 1).2.2.2.2⟩

/-- C1 counterexample: a well-formed JSON response missing every required
top-level field (the empty object) is not rejected — `analyzePatterns`'s
response handling accepts it as a whole, returning an analysis with every
field `undefined` and an `undefined` `pattern_profile`, instead of failing
with a schema error. -/
theorem c1_counterexample :
    handleResponse (some "response") (fun _ => some (Json.obj [])) =
      .ok ⟨⟨none, none, none, none, none, none, none, none⟩, none⟩ ∧
    (Json.obj []).getField "overview" = .ok none :=
  ⟨rfl, rfl⟩

/-- C1 (amended): the response is rejected as a whole exactly when it is
absent, empty, not parseable as JSON, or the JSON literal `null` (whose
first property access throws a TypeError) — all surfaced as the single
generic failure; every other parseable response is accepted as a whole
with its fields extracted by name and no client-side check that required
fields are present or well-typed — an object response missing any of them
simply yields `undefined` for those fields (the required-field list lives
only in the `responseSchema` sent to the model API). -/
theorem c1_no_client_schema_check (p : String → Option Json) (s : String)
    (fields : List (String × Json)) :
    handleResponse none p = .error .analysisFailed ∧
    handleResponse (some "") p = .error .analysisFailed ∧
    (p s = none → handleResponse (some s) p = .error .analysisFailed) ∧
    (s ≠ "" → p s = some Json.null → handleResponse (some s) p = .error .analysisFailed) ∧
    (s ≠ "" → p s = some (Json.obj fields) →
      handleResponse (some s) p =
        .ok ⟨⟨fields.lookup "overview", fields.lookup "emotional_patterns",
              fields.lookup "environment_patterns", fields.lookup "behavioral_loops",
              fields.lookup "triggers", fields.lookup "recurring_themes",
              fields.lookup "core_pursuits_and_why", fields.lookup "reflection_prompts"⟩,
             fields.lookup "pattern_profile"⟩) := by
  refine ⟨rfl, rfl, ?_, ?_, ?_⟩
  · intro hp
    by_cases hs : s = ""
    · simp [handleResponse, hs]
    · simp [handleResponse, hs, hp]
  · intro hs hp
    simp [handleResponse, hs, hp, extractAnalysis, Json.getField]
  · intro hs hp
    simp [handleResponse, hs, hp, extractAnalysis, Json.getField, Except.bind]

/-- C1 witness: concrete runs through the parse-failure branch, the
rejected `null`-response branch, and the accept-whole branch for an object
response missing every required field. -/
theorem c1_no_client_schema_check_witness :
    handleResponse (some "not json") (fun _ => none) = .error .analysisFailed ∧
    handleResponse (some "null") (fun _ => some Json.null) = .error .analysisFailed ∧
    handleResponse (some "empty-object") (fun _ => some (Json.obj [])) =
      .ok ⟨⟨none, none, none, none, none, none, none, none⟩, none⟩ :=
  ⟨(c1_no_client_schema_check (fun _ => none) "not json" []).2.2.1 rfl,
   (c1_no_client_schema_check (fun _ => some Json.null) "null" []).2.2.2.1 (by decide) rfl,
   (c1_no_client_schema_check (fun _ => some (Json.obj [])) "empty-object" []).2.2.2.2
     (by decide) rfl⟩

/-- C2 counterexample: with no API key configured, empty text and no
photos, `analyzePatterns` fails with the missing-key error, not the
no-content validation error — so the empty-content check is not the first
check performed in the call (the credential check precedes it). -/
theorem c2_counterexample :
    analyzePatterns none (fun _ => "") (fun _ => "") "" [] [] [] none
        (fun _ => none) (fun _ => none) = .error .apiKeyMissing ∧
    AnalyzeError.apiKeyMissing ≠ AnalyzeError.noContent :=
  ⟨rfl, by decide⟩

/-- C2 (amended): with the credential configured, whenever the journal text
is empty or whitespace-only and both photo batches are empty, the call
fails with the no-content validation error before any network call: the
pre-network phase `buildRequest` already errors, so no `Request` ever
exists, and the overall result is the same for every possible network
behavior `net`. The empty-content check is the second check in the call,
after the API-key check. -/
theorem c2_validation_before_network (k : String) (formatDate : String → String)
    (stringify : UserPatternProfile → String) (text : String)
    (pastEntries : List JournalEntry) (previousProfile : Option UserPatternProfile)
    (net : Request → Option String) (parse : String → Option Json)
    (hk : k ≠ "") (ht : jsLength (jsTrim text) = 0) :
    buildRequest (some k) formatDate stringify text [] [] pastEntries previousProfile =
      .error .noContent ∧
    analyzePatterns (some k) formatDate stringify text [] [] pastEntries previousProfile
      net parse = .error .noContent := by
  have hb : buildRequest (some k) formatDate stringify text [] [] pastEntries previousProfile =
      .error .noContent := by
    simp [buildRequest, hk, ht]
  refine ⟨hb, ?_⟩
  unfold analyzePatterns
  rw [hb]

/-- C2 witness: a concrete call with a configured key, whitespace-only
text and no photos fails with the no-content error for a concrete network
behavior. -/
theorem c2_validation_before_network_witness :
    analyzePatterns (some "api-key") (fun _ => "") (fun _ => "") "   " [] [] [] none
        (fun _ => some "response") (fun _ => none) = .error .noContent :=
  (c2_validation_before_network "api-key" (fun _ => "") (fun _ => "") "   " [] none
    (fun _ => some "response") (fun _ => none) (by decide) (by decide)).2

/-- C3: on a fully successful analysis cycle (the model call resolves and
both persistence writes succeed), `handleAnalyze` constructs the new
`JournalEntry` from the current inputs — the freshly generated id, the
current ISO timestamp, the trimmed current text, and the two current photo
counts, none of it taken from the model output — appends it newest-last so
the history grows by exactly 1, replaces the profile wholesale with the
model's returned `pattern_profile`, and ends Succeeded carrying the
returned analysis. -/
theorem c3_success_cycle (journalText : String) (journalPhotos spacePhotos : List UploadedFile)
    (history : List JournalEntry) (profile : Option UserPatternProfile)
    (freshId nowIso : String) (analysis : AnalysisResult) (pattern_profile : UserPatternProfile) :
    handleAnalyze journalText journalPhotos spacePhotos history profile freshId nowIso
        (.ok (analysis, pattern_profile)) (.ok ()) (.ok ()) =
      { history := history ++
          [{ id := freshId, timestamp := nowIso, text := jsTrim journalText,
             journalPhotoCount := journalPhotos.length,
             spacePhotoCount := spacePhotos.length }],
        profile := some pattern_profile,
        analysisState := { isLoading := false, error := none, result := some analysis } } ∧
    (handleAnalyze journalText journalPhotos spacePhotos history profile freshId nowIso
        (.ok (analysis, pattern_profile)) (.ok ()) (.ok ())).history.length =
      history.length + 1 := by
  refine ⟨rfl, ?_⟩
  simp [handleAnalyze]

/-- C4: the claim holds for every failure of the `analyzePatterns` call
itself — on any rejection, history and profile are untouched — but the code
violates it when the failure is a `localStorage` write failure after a
successful response: both `setItem` calls sit inside the same `try` block,
after the state updates, so the cycle ends Failed while history and profile
have already been mutated. This theorem evaluates the code at the failing
input: pre-call history `[]` and profile `none`, a successful model
response, and a history write that throws (e.g. quota exhaustion) — the
cycle ends Failed yet history has grown and the profile was replaced. -/
theorem c4_persist_failure_mutates_state :
    (∀ (text : String) (jp sp : List UploadedFile) (hist : List JournalEntry)
      (prof : Option UserPatternProfile) (id now m : String) (pH pP : Except String Unit),
        (handleAnalyze text jp sp hist prof id now (.error m) pH pP).history = hist ∧
        (handleAnalyze text jp sp hist prof id now (.error m) pH pP).profile = prof) ∧
    handleAnalyze "hello" [] [] [] none "id-1" "2026-01-01T00:00:00.000Z"
        (.ok (sampleAnalysis, sampleProfile)) (.error "QuotaExceededError") (.ok ()) =
      { history := [{ id := "id-1", timestamp := "2026-01-01T00:00:00.000Z", text := "hello",
                      journalPhotoCount := 0, spacePhotoCount := 0 }],
        profile := some sampleProfile,
        analysisState := { isLoading := false, error := some "QuotaExceededError",
                           result := none } } := by
  refine ⟨fun text jp sp hist prof id now m pH pP => ⟨rfl, rfl⟩, ?_⟩
  decide

/-- C8: evaluation of the code at the failing input — a successful model
response followed by a failing `localStorage` write. The spec's
best-effort-persistence policy says the cycle must still end Succeeded
carrying the `AnalysisResult`; the code instead lands in the `catch`,
which overwrites the success state, so the cycle ends Failed and the
result is not shown. -/
theorem c8_persist_failure_blocks_result :
    (handleAnalyze "hello" [] [] [] none "id-1" "2026-01-01T00:00:00.000Z"
        (.ok (sampleAnalysis, sampleProfile)) (.error "QuotaExceededError")
        (.ok ())).analysisState =
      { isLoading := false, error := some "QuotaExceededError", result := none } := by
  decide

/-- C9 counterexample: submitting the text `" hi "` (with surrounding
whitespace) on a successful first-ever cycle records an entry whose text is
`"hi"`, not the submitted text verbatim — `handleAnalyze` stores
`journalText.trim()`. -/
theorem c9_counterexample :
    (handleAnalyze " hi " [] [] [] none "id-9" "ts-9"
        (.ok (sampleAnalysis, sampleProfile)) (.ok ()) (.ok ())).history.map
        (fun e => e.text) = ["hi"] ∧
    "hi" ≠ " hi " := by
  refine ⟨?_, by decide⟩
  decide

/-- C9 (amended): on every successful first-ever cycle the history ends
with length exactly 1, containing an entry whose text is the submitted
text with leading and trailing whitespace removed (`journalText.trim()`);
for submissions without surrounding whitespace this is the submitted text
verbatim. -/
theorem c9_first_entry_trimmed (journalText : String)
    (journalPhotos spacePhotos : List UploadedFile) (freshId nowIso : String)
    (analysis : AnalysisResult) (pattern_profile : UserPatternProfile) :
    (handleAnalyze journalText journalPhotos spacePhotos [] none freshId nowIso
        (.ok (analysis, pattern_profile)) (.ok ()) (.ok ())).history =
      [{ id := freshId, timestamp := nowIso, text := jsTrim journalText,
         journalPhotoCount := journalPhotos.length,
         spacePhotoCount := spacePhotos.length }] ∧
    (handleAnalyze journalText journalPhotos spacePhotos [] none freshId nowIso
        (.ok (analysis, pattern_profile)) (.ok ()) (.ok ())).history.length = 1 :=
  ⟨rfl, rfl⟩

set_option maxRecDepth 10000 in
/-- C6 counterexample: a 401-character entry whose truncated prefix
contains a newline. The rendered snippet is the prefix with its newlines
replaced by spaces plus the ellipsis — it is not "exactly the prefix of the
text up to the bound followed by the marker", as the claim states for the
`pastEntriesBlock` renderer. -/
theorem c6_counterexample :
    400 < jsLength longNlEntry.text ∧
    snippetWithMarker longNlEntry = jsReplaceNl (jsSlice longNlEntry.text 400) ++ "..." ∧
    snippetWithMarker longNlEntry ≠ jsSlice longNlEntry.text 400 ++ "..." := by
  refine ⟨by decide, by decide, by decide⟩

/-- C6 (amended): an entry longer than the bound (400 characters in the
`pastEntriesBlock` renderer, 500 in the `historySummaryText` renderer) is
rendered as the prefix up to the bound — with newlines replaced by spaces
in the `pastEntriesBlock` renderer — followed by the explicit `...` marker;
only that strict prefix of the text is embedded (the slice has exactly the
bound's length and differs from the full text), never the full text. An
entry at or under the bound is rendered without the marker, with its text
untruncated. -/
theorem c6_truncation (e : JournalEntry) :
    (400 < jsLength e.text →
      snippetWithMarker e = jsReplaceNl (jsSlice e.text 400) ++ "..." ∧
      jsLength (jsSlice e.text 400) = 400 ∧ jsSlice e.text 400 ≠ e.text) ∧
    (jsLength e.text ≤ 400 → snippetWithMarker e = jsReplaceNl e.text) ∧
    (500 < jsLength e.text →
      historyLine e = "- [" ++ e.timestamp ++ "] " ++ (jsSlice e.text 500 ++ "...") ∧
      jsLength (jsSlice e.text 500) = 500 ∧ jsSlice e.text 500 ≠ e.text) ∧
    (jsLength e.text ≤ 500 →
      historyLine e = "- [" ++ e.timestamp ++ "] " ++ e.text) := by
  refine ⟨?_, ?_, ?_, ?_⟩
  · intro h
    refine ⟨?_, ?_, jsSlice_ne_of_lt e.text 400 (by omega)⟩
    · simp [snippetWithMarker, snippetOf, h]
    · rw [jsLength_jsSlice]
      omega
  · intro h
    have hn : ¬ 400 < jsLength e.text := by omega
    simp [snippetWithMarker, snippetOf, hn, jsSlice_of_le e.text 400 h]
  · intro h
    refine ⟨?_, ?_, jsSlice_ne_of_lt e.text 500 (by omega)⟩
    · simp [historyLine, h, String.append_assoc]
    · rw [jsLength_jsSlice]
      omega
  · intro h
    have hn : ¬ 500 < jsLength e.text := by omega
    simp [historyLine, hn, jsSlice_of_le e.text 500 h]

set_option maxRecDepth 10000 in
/-- C6 witness: concrete renderings — the 401-character entry truncated
with newline flattening in the snippet renderer but rendered in full by the
500-bound summary renderer; the 501-character entry truncated with the
marker by the summary renderer; a short entry rendered without any marker. -/
theorem c6_truncation_witness :
    snippetWithMarker longNlEntry = jsReplaceNl (jsSlice longNlEntry.text 400) ++ "..." ∧
    historyLine longNlEntry = "- [" ++ longNlEntry.timestamp ++ "] " ++ longNlEntry.text ∧
    historyLine long501Entry =
      "- [" ++ long501Entry.timestamp ++ "] " ++ (jsSlice long501Entry.text 500 ++ "...") ∧
    snippetWithMarker sampleEntry = jsReplaceNl sampleEntry.text :=
  ⟨((c6_truncation longNlEntry).1 (by decide)).1,
   (c6_truncation longNlEntry).2.2.2 (by decide),
   ((c6_truncation long501Entry).2.2.1 (by decide)).1,
   (c6_truncation sampleEntry).2.1 (by decide)⟩

/-- C7 counterexample: a valid history blob together with a corrupt profile
blob. The history is parsed and applied before the profile parse throws, so
`load` yields the parsed (non-empty) history with an absent profile — not
the "empty history and absent profile, both reset together" the claim
requires on any deserialization failure. -/
theorem c7_counterexample :
    loadStoredState (some "stored-history") (some "corrupt-profile")
        (fun _ => some [sampleEntry]) (fun _ => none) = ([sampleEntry], none) ∧
    [sampleEntry] ≠ ([] : List JournalEntry) :=
  ⟨rfl, by decide⟩

/-- C7 (amended): `load` never raises to the caller (it is a total
function whose `catch` only logs). When nothing is stored it yields the
empty state; when the history blob fails to deserialize, both values come
back empty/absent; but when only the profile blob fails after a history
blob parsed successfully, the parsed history is kept and only the profile
is absent — the pair is not always reset together. -/
theorem c7_load_resilience (s t : String)
    (parseHistory : String → Option (List JournalEntry))
    (parseProfile : String → Option UserPatternProfile) :
    loadStoredState none none parseHistory parseProfile = ([], none) ∧
    (s ≠ "" → parseHistory s = none →
      loadStoredState (some s) (some t) parseHistory parseProfile = ([], none)) ∧
    (s ≠ "" → t ≠ "" → ∀ h, parseHistory s = some h → parseProfile t = none →
      loadStoredState (some s) (some t) parseHistory parseProfile = (h, none)) := by
  refine ⟨rfl, ?_, ?_⟩
  · intro hs hp
    simp [loadStoredState, jsTruthy, hs, hp]
  · intro hs ht h hp hq
    simp [loadStoredState, jsTruthy, hs, ht, hp, hq]

/-- C7 witness: concrete loads — a corrupt history blob degrades to the
fully empty state; a corrupt profile blob after a valid history blob keeps
the parsed history. -/
theorem c7_load_resilience_witness :
    loadStoredState (some "h-blob") (some "p-blob") (fun _ => none)
        (fun _ => some sampleProfile) = ([], none) ∧
    loadStoredState (some "h-blob") (some "p-blob") (fun _ => some [sampleEntry])
        (fun _ => none) = ([sampleEntry], none) :=
  ⟨(c7_load_resilience "h-blob" "p-blob" (fun _ => none) (fun _ => some sampleProfile)).2.1
      (by decide) rfl,
   (c7_load_resilience "h-blob" "p-blob" (fun _ => some [sampleEntry]) (fun _ => none)).2.2
      (by decide) (by decide) [sampleEntry] rfl rfl⟩
